import Mathlib

/-!
# PlotTwist Arena — verification of the scoring/retrieval core and API glue

Shallow embedding of the parts of the `plot-twist-arena` repository that the
claims are about:

* the Express-side glue in `backend/src/routes/ai-guess.ts` (the
  `/generate-story` handler's JSON response body) and
  `backend/src/services/model-client.ts` (`ModelClient.predictTwist`'s
  request-body construction), and the `/api/leaderboard` route
  (`backend/src/routes/leaderboard.ts`);
* the model server's hybrid scorer, vector index and retrieval-augmented
  predictor.  The Python model server is not part of the repository snapshot
  (only its HTTP clients and documentation are), so those components are
  modelled from the specification, as marked on each definition.

Machine-level numerics are modelled over `ℚ`; the sentence-embedding model and
the cosine-similarity kernel it induces are abstract parameters (their outputs
are real vectors produced by a neural network, so every property proved here
holds for an arbitrary similarity oracle).
-/

deriving instance DecidableEq for Except

namespace PlotTwist

/-! ## Hybrid scorer (spec §4.4) -/

/-- Modelled from the spec: the scorer's error for invalid input — "empty
`guess` or `actual_twist` → `ScoringError`". The Python model server carrying
`score` is absent from the snapshot. -/
inductive ScoringError where
  | emptyInput
deriving DecidableEq, Repr

/-- Modelled from the spec: `ScoreBreakdown = {cosine_similarity,
lexical_overlap, tag_overlap, final_score, justification}` (spec §3). -/
structure ScoreBreakdown where
  cosine_similarity : ℚ
  lexical_overlap : ℚ
  tag_overlap : ℚ
  final_score : ℚ
  justification : String
deriving DecidableEq, Repr

/-- Clamp a rational to `[0, 1]` (spec §4.4: cosine "clamped to [0,1] for
scoring purposes"). -/
def clamp01 (x : ℚ) : ℚ := max 0 (min 1 x)

/-- Clamp a rational to `[0, 100]` (spec §3: "final_score is always clamped
to [0, 100]"). -/
def clamp0100 (x : ℚ) : ℚ := max 0 (min 100 x)

/-- Split a character list on a separator character; the pieces between
separators, in order (the char-level counterpart of splitting a string on a
one-character delimiter). -/
def splitOnCharAux (sep : Char) : List Char → List Char → List (List Char)
  | [], acc => [acc.reverse]
  | c :: cs, acc =>
    if c = sep then acc.reverse :: splitOnCharAux sep cs []
    else splitOnCharAux sep cs (c :: acc)

/-- Split a character list on a separator character. -/
def splitOnChar (sep : Char) (cs : List Char) : List (List Char) :=
  splitOnCharAux sep cs []

/-- Whitespace tokenisation used by the lexical-overlap signal. -/
def tokenize (s : String) : List String :=
  ((splitOnChar ' ' s.toList).map List.asString).filter (fun t => t ≠ "")

/-- Modelled from the spec: "a normalized token-overlap metric (e.g., set-based
Jaccard …) between the two texts, in [0,1]" — Jaccard index of the two token
sets. -/
def jaccard (xs ys : List String) : ℚ :=
  let inter := (xs.dedup.filter (fun t => ys.contains t)).length
  let union := (xs ++ ys).dedup.length
  if union = 0 then 0 else (inter : ℚ) / (union : ℚ)

/-- Modelled from the spec: "`lexical_overlap` = a normalized token-overlap
metric … between the two texts, in [0,1]". -/
def lexicalOverlap (a b : String) : ℚ := jaccard (tokenize a) (tokenize b)

/-- Modelled from the spec: "`tag_overlap` = fraction of shared tags over the
union of tag sets, 0 if either tag set is empty/absent". -/
def tagOverlap (ta tb : List String) : ℚ :=
  if ta = [] ∨ tb = [] then 0 else jaccard ta tb

/-- Modelled from the spec: the documented semantic-dominant 70/20/10 blend of
the three signals, scaled to [0, 100] and clamped (spec §4.4: "`final_score` =
weighted combination of the three signals scaled to [0, 100]"; spec §3:
"final_score is always clamped to [0, 100]"). -/
def blend (c l t : ℚ) : ℚ :=
  clamp0100 (100 * (7/10 * c + 2/10 * l + 1/10 * t))

/-- Modelled from the spec: "`justification`: templated natural-language
explanation selected by score band". -/
def justificationFor (s : ℚ) : String :=
  if 70 ≤ s then "Excellent match: the guess captures the actual twist."
  else if 40 ≤ s then "Partial match: the guess shares ideas with the actual twist."
  else "Weak match: the guess diverges from the actual twist."

/-- Modelled from the spec (§4.4): `score(guess, actual_twist, tags_guess?,
tags_actual?) -> ScoreBreakdown`.  The Python model server carrying this
function is absent from the snapshot; the definition follows the spec's
algorithm: empty input fails with `ScoringError`; identical strings are
special-cased to a `final_score` of exactly 100; otherwise the final score
is the documented semantic-dominant 70/20/10 blend of clamped cosine
similarity, lexical overlap and tag overlap, scaled to [0, 100] and clamped.
The cosine-similarity kernel `cos` (cosine of the embeddings of the two
texts) is an abstract parameter. -/
def score (cos : String → String → ℚ) (guess actual : String)
    (tagsGuess tagsActual : List String) : Except ScoringError ScoreBreakdown :=
  if guess = "" ∨ actual = "" then .error .emptyInput
  else
    let c := clamp01 (cos guess actual)
    let l := lexicalOverlap guess actual
    let t := tagOverlap tagsGuess tagsActual
    let f := if guess = actual then 100 else blend c l t
    .ok ⟨c, l, t, f, justificationFor f⟩

/-! ## `/generate-story` handler response (backend/src/routes/ai-guess.ts) -/

/-- The `GenerateStoryResponse` of the model client
(`backend/src/services/model-client.ts`): `{story_setup, hidden_twist,
genre}`. -/
structure GeneratedStory where
  story_setup : String
  hidden_twist : String
  genre : String
deriving DecidableEq, Repr

/-- A JSON field value as sent by the Express handlers (only the shapes the
modelled handlers produce). -/
inductive Json where
  | num (n : Nat)
  | str (s : String)
deriving DecidableEq, Repr

/-- Embeds the `res.json({...})` body of the `POST /generate-story` handler in
`backend/src/routes/ai-guess.ts` (humanGuessRouter): the handler sends
`session_id`, `story_setup`, `genre` and — despite the inline comment
"Hidden twist is NOT sent to frontend" — a `_hidden_twist` field carrying
`story.hidden_twist`. -/
def generateStoryResponseBody (sessionId : Nat) (story : GeneratedStory) :
    List (String × Json) :=
  [("session_id", .num sessionId),
   ("story_setup", .str story.story_setup),
   ("genre", .str story.genre),
   ("_hidden_twist", .str story.hidden_twist)]

/-! ## `ModelClient.predictTwist` request body (backend/src/services/model-client.ts) -/

/-- The `PredictTwistRequest` interface: `{story_setup, genre?,
num_predictions?}`. -/
structure PredictTwistRequest where
  story_setup : String
  genre : Option String
  num_predictions : Option Nat
deriving DecidableEq, Repr

/-- The body `ModelClient.predictTwist` POSTs to the model server. -/
structure PredictTwistBody where
  story_setup : String
  genre : Option String
  num_predictions : Nat
deriving DecidableEq, Repr

/-- JavaScript's `x || d` for an optional number `x`: `undefined` and `0` are
falsy, any other number is returned unchanged. -/
def jsOrDefault (x : Option Nat) (d : Nat) : Nat :=
  match x with
  | none => d
  | some n => if n = 0 then d else n

/-- Embeds the request body built by `ModelClient.predictTwist`
(`backend/src/services/model-client.ts` lines 44–51): `story_setup` and
`genre` are forwarded, and `num_predictions` is
`request.num_predictions || 3`. -/
def predictTwistBody (req : PredictTwistRequest) : PredictTwistBody :=
  ⟨req.story_setup, req.genre, jsOrDefault req.num_predictions 3⟩

/-! ## Vector index (spec §4.2) -/

/-- An embedding vector; the embedder's fixed output dimension is irrelevant
to the ranking contract, so vectors are plain rational lists. -/
abbrev Vec := List ℚ

/-- `TwistExample = {id, genre, story_setup, twist, tags[]}` (spec §3). -/
structure TwistExample where
  id : Nat
  genre : String
  story_setup : String
  twist : String
  tags : List String
deriving DecidableEq, Repr

/-- Modelled from the spec: the vector index stores "vectors alongside example
identifiers"; the Python model server carrying the index is absent from the
snapshot.  Entries are kept in corpus insertion order. -/
structure Index where
  entries : List (TwistExample × Vec)
deriving DecidableEq, Repr

/-- A stored entry scored against a query vector, tagged with its corpus
insertion position `pos`. -/
structure Scored where
  pos : Nat
  simval : ℚ
  ex : TwistExample
deriving DecidableEq, Repr

/-- The ranking order of a query: higher similarity first, ties broken by
corpus insertion order (spec §4.2: "ties broken by corpus insertion order
(stable)"). -/
def rankRel (a b : Scored) : Prop :=
  b.simval < a.simval ∨ (a.simval = b.simval ∧ a.pos ≤ b.pos)

instance : DecidableRel rankRel := fun a b => by
  unfold rankRel; infer_instance

instance : IsTotal Scored rankRel where
  total a b := by
    rcases lt_trichotomy a.simval b.simval with h | h | h
    · exact Or.inr (Or.inl h)
    · rcases Nat.le_total a.pos b.pos with hp | hp
      · exact Or.inl (Or.inr ⟨h, hp⟩)
      · exact Or.inr (Or.inr ⟨h.symm, hp⟩)
    · exact Or.inl (Or.inl h)

instance : IsTrans Scored rankRel where
  trans a b c hab hbc := by
    rcases hab with hab | ⟨hab, hab'⟩
    · rcases hbc with hbc | ⟨hbc, _⟩
      · exact Or.inl (hbc.trans hab)
      · exact Or.inl (by rw [← hbc]; exact hab)
    · rcases hbc with hbc | ⟨hbc, hbc'⟩
      · exact Or.inl (by rw [hab]; exact hbc)
      · exact Or.inr ⟨hab.trans hbc, hab'.trans hbc'⟩

/-- All index entries scored against the query vector `v`, in corpus insertion
order; the cosine-similarity kernel `sim` is an abstract parameter. -/
def scoredEntries (sim : Vec → Vec → ℚ) (idx : Index) (v : Vec) : List Scored :=
  idx.entries.enum.map (fun p => ⟨p.1, sim p.2.2 v, p.2.1⟩)

/-- Modelled from the spec: brute-force top-K ranking — every stored vector is
scored, the entries are stably sorted by descending similarity, and the best
`k` are kept ("if k exceeds corpus size, returns all entries without
error"). -/
def queryScored (sim : Vec → Vec → ℚ) (idx : Index) (v : Vec) (k : Nat) :
    List Scored :=
  (List.insertionSort rankRel (scoredEntries sim idx v)).take k

/-- Modelled from the spec (§4.2): `query(vector, k) -> RetrievalResult`, an
ordered sequence of `(TwistExample, similarity_score)` pairs. -/
def query (sim : Vec → Vec → ℚ) (idx : Index) (v : Vec) (k : Nat) :
    List (TwistExample × ℚ) :=
  (queryScored sim idx v k).map (fun s => (s.ex, s.simval))

/-! ## Retrieval-augmented predictor (spec §4.3) -/

/-- Modelled from the spec: `PredictionError` — "generation or parsing failure
with no usable candidates". -/
inductive PredictionError where
  | emptyOutput
deriving DecidableEq, Repr

/-- `PredictionCandidate = {text, confidence}` (spec §3). -/
structure PredictionCandidate where
  text : String
  confidence : ℚ
deriving DecidableEq, Repr

/-- Modelled from the spec: the genre filter is "a soft preference: if
filtering yields zero matches, fall back to unfiltered top-K rather than
failing". -/
def filterByGenre (entries : List (TwistExample × Vec)) (genre : Option String) :
    List (TwistExample × Vec) :=
  match genre with
  | none => entries
  | some g =>
    let f := entries.filter (fun e => e.1.genre = g)
    if f.isEmpty then entries else f

/-- Modelled from the spec: retrieval of the top-K similar stored examples,
optionally soft-filtered by genre. -/
def retrieve (sim : Vec → Vec → ℚ) (idx : Index) (v : Vec)
    (genre : Option String) (K : Nat) : List (TwistExample × ℚ) :=
  query sim ⟨filterByGenre idx.entries genre⟩ v K

/-- Modelled from the spec: the few-shot prompt — "instruction + the retrieved
examples (setup/twist pairs) + the query setup, requesting `num_predictions`
distinct twist completions" as a numbered list. -/
def fewShotPrompt (retrieved : List TwistExample) (setup : String)
    (num : Nat) : String :=
  "Given a story setup, propose " ++ toString num ++
    " distinct plot twists as a numbered list.\n" ++
  String.join (retrieved.map (fun e =>
    "Setup: " ++ e.story_setup ++ "\nTwist: " ++ e.twist ++ "\n")) ++
  "Setup: " ++ setup ++ "\nTwists:"

/-- Whether a character is ASCII whitespace. -/
def isSpaceChar (c : Char) : Bool :=
  c = ' ' || c = '\t' || c = '\r' || c = '\n'

/-- Trim leading and trailing whitespace from a character list. -/
def trimChars (cs : List Char) : List Char :=
  ((cs.dropWhile isSpaceChar).reverse.dropWhile isSpaceChar).reverse

/-- Strip a leading list number (e.g. `"1. "`) from a trimmed line of model
output: a non-empty run of digits followed by a dot. -/
def stripListNumber (line : List Char) : List Char :=
  let t := trimChars line
  match t.dropWhile Char.isDigit with
  | '.' :: rest => if (t.takeWhile Char.isDigit) = [] then t else trimChars rest
  | _ => t

/-- Modelled from the spec: "parse its output into … separate candidate
strings (split on a structural delimiter the prompt requests, e.g., numbered
list)" — one candidate per non-empty line, with list numbering stripped. -/
def parseCandidates (output : String) : List String :=
  (((splitOnChar '\n' output.toList).map
    (fun l => (stripListNumber l).asString)).filter (fun s => s ≠ ""))

/-- Modelled from the spec: "Assign confidence scores as a monotonically
decreasing sequence (e.g., generation-order heuristic …) — any deterministic,
explainable scheme is acceptable provided order is preserved" — the
generation-order heuristic `0.9 · 0.75^i` for the i-th candidate. -/
def confidenceFor (i : Nat) : ℚ := 9/10 * (3/4 : ℚ)^i

/-- The candidate strings parsed from the generative model's raw output for a
given request (steps 1–4 of spec §4.3): embed the setup, retrieve, build the
few-shot prompt, invoke the model `gen`, parse. -/
def predictParsed (gen : String → String) (sim : Vec → Vec → ℚ)
    (embed : String → Vec) (idx : Index) (setup : String)
    (genre : Option String) (num K : Nat) : List String :=
  parseCandidates (gen (fewShotPrompt
    ((retrieve sim idx (embed setup) genre K).map Prod.fst) setup num))

/-- Modelled from the spec (§4.3): `predict(story_setup, genre?,
num_predictions) -> PredictionCandidate[]`.  No usable candidates is a
`PredictionError`; otherwise at most `num` parsed candidates are returned
(never fabricated), ranked with the decreasing confidence scheme.  The
generative model `gen`, the similarity kernel `sim` and the embedder `embed`
are abstract parameters; `K` is the configurable retrieval depth. -/
def predict (gen : String → String) (sim : Vec → Vec → ℚ)
    (embed : String → Vec) (idx : Index) (setup : String)
    (genre : Option String) (num K : Nat) :
    Except PredictionError (List PredictionCandidate) :=
  let parsed := predictParsed gen sim embed idx setup genre num K
  if parsed = [] then .error .emptyOutput
  else .ok ((parsed.take num).enum.map (fun p => ⟨p.2, confidenceFor p.1⟩))

/-! ## `GET /api/leaderboard` (backend/src/routes/leaderboard.ts) -/

/-- A row of the `leaderboard` table as selected by the route:
`player_name, mode, score, created_at`; `created_at` is the insertion
timestamp. -/
structure LeaderboardRow where
  player_name : String
  mode : String
  score : ℚ
  created_at : Nat
deriving DecidableEq, Repr

/-- Value of a string of decimal digits taken as a prefix (JavaScript
`parseInt` keeps the longest digit prefix and ignores the rest); `none` when
the string has no leading digit. -/
def decPrefixVal (cs : List Char) : Option Nat :=
  let ds := cs.takeWhile Char.isDigit
  if ds = [] then none
  else some (ds.foldl (fun a c => 10 * a + (c.toNat - 48)) 0)

/-- Whether a character is a hexadecimal digit. -/
def isHexDigit (c : Char) : Bool :=
  c.isDigit || ('a' ≤ c && c ≤ 'f') || ('A' ≤ c && c ≤ 'F')

/-- Numeric value of a hexadecimal digit. -/
def hexDigitVal (c : Char) : Nat :=
  if c.isDigit then c.toNat - 48
  else if 'a' ≤ c && c ≤ 'f' then c.toNat - 87
  else c.toNat - 55

/-- Value of a string of hex digits taken as a prefix; `none` when the string
has no leading hex digit (`parseInt("0x")` is `NaN`). -/
def hexPrefixVal (cs : List Char) : Option Nat :=
  let ds := cs.takeWhile isHexDigit
  if ds = [] then none
  else some (ds.foldl (fun a c => 16 * a + hexDigitVal c) 0)

/-- Magnitude part of JavaScript `parseInt` with no radix argument: a `0x` or
`0X` prefix switches to hexadecimal, otherwise the longest leading run of
decimal digits is taken; `none` models `NaN`. -/
def jsParseDigits (cs : List Char) : Option Nat :=
  match cs with
  | '0' :: c :: rest =>
    if c = 'x' ∨ c = 'X' then hexPrefixVal rest else decPrefixVal ('0' :: c :: rest)
  | cs => decPrefixVal cs

/-- JavaScript `parseInt(s)`: leading whitespace skipped, optional sign, then
digits (hex after `0x`); `none` models `NaN`. -/
def jsParseInt (s : String) : Option Int :=
  match trimChars s.toList with
  | '+' :: rest => (jsParseDigits rest).map Int.ofNat
  | '-' :: rest => (jsParseDigits rest).map (fun n => -(n : Int))
  | rest => (jsParseDigits rest).map Int.ofNat

/-- Embeds `const limit = parseInt(req.query.limit as string) || 10;` — an
absent parameter parses to `NaN`, and both `NaN` and `0` are falsy, so they
fall back to 10. -/
def effectiveLimit (limitQ : Option String) : Int :=
  match limitQ with
  | none => 10
  | some s =>
    match jsParseInt s with
    | none => 10
    | some n => if n = 0 then 10 else n

/-- Embeds the route's mode handling: the `WHERE mode = $1` clause is added
only when `mode` is truthy and equals `'ai_guess'` or `'human_guess'`. -/
def modeFilter (modeQ : Option String) (rows : List LeaderboardRow) :
    List LeaderboardRow :=
  match modeQ with
  | none => rows
  | some m =>
    if m ≠ "" ∧ (m = "ai_guess" ∨ m = "human_guess") then
      rows.filter (fun r => r.mode = m)
    else rows

/-- The route's `ORDER BY score DESC, created_at DESC`: higher score first,
ties broken by later `created_at` first. -/
def lbRel (a b : LeaderboardRow) : Prop :=
  b.score < a.score ∨ (a.score = b.score ∧ b.created_at ≤ a.created_at)

instance : DecidableRel lbRel := fun a b => by
  unfold lbRel; infer_instance

instance : IsTotal LeaderboardRow lbRel where
  total a b := by
    rcases lt_trichotomy a.score b.score with h | h | h
    · exact Or.inr (Or.inl h)
    · rcases Nat.le_total a.created_at b.created_at with hp | hp
      · exact Or.inr (Or.inr ⟨h.symm, hp⟩)
      · exact Or.inl (Or.inr ⟨h, hp⟩)
    · exact Or.inl (Or.inl h)

instance : IsTrans LeaderboardRow lbRel where
  trans a b c hab hbc := by
    rcases hab with hab | ⟨hab, hab'⟩
    · rcases hbc with hbc | ⟨hbc, _⟩
      · exact Or.inl (hbc.trans hab)
      · exact Or.inl (by rw [← hbc]; exact hab)
    · rcases hbc with hbc | ⟨hbc, hbc'⟩
      · exact Or.inl (by rw [hab]; exact hbc)
      · exact Or.inr ⟨hab.trans hbc, hbc'.trans hab'⟩

/-- The database error surfaced when the SQL query cannot run (PostgreSQL
rejects a negative `LIMIT`); the route maps it to a 500 response with no
rows. -/
inductive DbError where
  | negativeLimit
deriving DecidableEq, Repr

/-- Embeds the `GET /leaderboard` handler of
`backend/src/routes/leaderboard.ts` over a table state `rows`: parse `limit`
with the `|| 10` fallback, add the mode filter only for the two known modes,
and run `SELECT … ORDER BY score DESC, created_at DESC LIMIT $n`. -/
def leaderboardHandler (modeQ limitQ : Option String)
    (rows : List LeaderboardRow) : Except DbError (List LeaderboardRow) :=
  let limit := effectiveLimit limitQ
  if limit < 0 then .error .negativeLimit
  else .ok ((List.insertionSort lbRel (modeFilter modeQ rows)).take limit.toNat)

/-! ## Concrete sample data for witness instantiations -/

/-- A two-example horror corpus with embeddings, in insertion order. -/
def sampleIndex : Index :=
  ⟨[(⟨1, "horror", "A ghost haunts a house", "The ghost is alive", ["horror"]⟩, [3, 0]),
    (⟨2, "horror", "A letter arrives decades late", "The sender never existed", ["mystery"]⟩, [5, 1])]⟩

/-- A constant similarity kernel for witness instantiations. -/
def constSim : Vec → Vec → ℚ := fun _ _ => 0

/-- A constant embedder for witness instantiations. -/
def constEmbed : String → Vec := fun _ => [0, 0]

/-- A generative model stub returning a fixed two-item numbered list. -/
def twoLineGen : String → String := fun _ => "1. A\n2. B"

/-- A generative model stub returning a single-item numbered list. -/
def oneLineGen : String → String := fun _ => "1. A"

/-- A sample leaderboard row. -/
def rowP : LeaderboardRow := ⟨"p", "ai_guess", 50, 1⟩

/-- A second sample leaderboard row with a higher score. -/
def rowQ : LeaderboardRow := ⟨"q", "human_guess", 80, 2⟩

/-! ## Scorer lemmas -/

theorem clamp0100_nonneg (x : ℚ) : 0 ≤ clamp0100 x := le_max_left _ _

theorem clamp0100_le_hundred (x : ℚ) : clamp0100 x ≤ 100 :=
  max_le (by norm_num) (min_le_left _ _)

theorem blend_nonneg (c l t : ℚ) : 0 ≤ blend c l t := clamp0100_nonneg _

theorem blend_le_hundred (c l t : ℚ) : blend c l t ≤ 100 := clamp0100_le_hundred _

/-- The scorer's successful result, made explicit for non-empty inputs. -/
theorem score_of_ne_empty (cos : String → String → ℚ) (g a : String)
    (tagsG tagsA : List String) (hg : g ≠ "") (ha : a ≠ "") :
    score cos g a tagsG tagsA = Except.ok
      { cosine_similarity := clamp01 (cos g a)
        lexical_overlap := lexicalOverlap g a
        tag_overlap := tagOverlap tagsG tagsA
        final_score := if g = a then 100
          else blend (clamp01 (cos g a)) (lexicalOverlap g a) (tagOverlap tagsG tagsA)
        justification := justificationFor (if g = a then 100
          else blend (clamp01 (cos g a)) (lexicalOverlap g a) (tagOverlap tagsG tagsA)) } := by
  simp only [score, hg, ha, or_self, if_false, ite_false]

/-- C2: for every non-empty string `x`, `score(x, x)` returns a
`ScoreBreakdown` whose `final_score` is exactly 100 (exact-match special
case). -/
theorem score_exact_match_is_hundred (cos : String → String → ℚ)
    (tagsG tagsA : List String) (x : String) (hx : x ≠ "") :
    ∃ b, score cos x x tagsG tagsA = Except.ok b ∧ b.final_score = 100 :=
  ⟨_, score_of_ne_empty cos x x tagsG tagsA hx hx, by simp⟩

theorem score_exact_match_is_hundred_witness :
    ("The ghost is alive" : String) ≠ "" ∧
    ∃ b, score (fun _ _ => 1/2) "The ghost is alive" "The ghost is alive"
        ["horror"] [] = Except.ok b ∧ b.final_score = 100 :=
  ⟨by decide,
   score_exact_match_is_hundred (fun _ _ => 1/2) ["horror"] [] "The ghost is alive" (by decide)⟩

/-- C3: for every pair of non-empty inputs, the scorer succeeds and the
`final_score` of the returned breakdown lies in the closed interval
[0, 100]. -/
theorem score_final_score_in_range (cos : String → String → ℚ)
    (tagsG tagsA : List String) (g a : String) (hg : g ≠ "") (ha : a ≠ "") :
    ∃ b, score cos g a tagsG tagsA = Except.ok b ∧
      0 ≤ b.final_score ∧ b.final_score ≤ 100 := by
  refine ⟨_, score_of_ne_empty cos g a tagsG tagsA hg ha, ?_, ?_⟩ <;> dsimp only <;> split
  · norm_num
  · exact blend_nonneg _ _ _
  · norm_num
  · exact blend_le_hundred _ _ _

theorem score_final_score_in_range_witness :
    ("The butler did it" : String) ≠ "" ∧ ("Aliens invaded" : String) ≠ "" ∧
    ∃ b, score (fun _ _ => 1/2) "The butler did it" "Aliens invaded" [] [] = Except.ok b ∧
      0 ≤ b.final_score ∧ b.final_score ≤ 100 :=
  ⟨by decide, by decide,
   score_final_score_in_range (fun _ _ => 1/2) [] [] "The butler did it" "Aliens invaded"
     (by decide) (by decide)⟩

/-- C8: the scorer fails with `ScoringError` exactly when `guess` or
`actual_twist` is the empty string; for non-empty inputs it never fails. -/
theorem score_error_iff_empty_input (cos : String → String → ℚ)
    (tagsG tagsA : List String) (g a : String) :
    score cos g a tagsG tagsA = Except.error ScoringError.emptyInput ↔
      (g = "" ∨ a = "") := by
  constructor
  · intro h
    by_contra hc
    push_neg at hc
    rw [score_of_ne_empty cos g a tagsG tagsA hc.1 hc.2] at h
    exact Except.noConfusion h
  · intro h
    unfold score
    rw [if_pos h]

/-! ## `/generate-story` handler -/

/-- C1 (code bug): contrary to the spec's confidentiality invariant and the
handler's own comment, the `POST /generate-story` response body delivered to
the guessing party always contains a `_hidden_twist` field carrying the
generated hidden twist. -/
theorem generate_story_response_carries_hidden_twist
    (sessionId : Nat) (story : GeneratedStory) :
    ("_hidden_twist", Json.str story.hidden_twist) ∈
      generateStoryResponseBody sessionId story := by
  simp [generateStoryResponseBody]

/-! ## `ModelClient.predictTwist` -/

/-- C9: `ModelClient.predictTwist` sends `num_predictions = 3` when the
request leaves it absent or sets it to 0 (the falsy-or operator), and
forwards any other value unchanged. -/
theorem predict_twist_num_predictions (req : PredictTwistRequest) :
    ((req.num_predictions = none ∨ req.num_predictions = some 0) →
      (predictTwistBody req).num_predictions = 3) ∧
    (∀ n, req.num_predictions = some n → n ≠ 0 →
      (predictTwistBody req).num_predictions = n) := by
  constructor
  · rintro (h | h) <;> simp [predictTwistBody, jsOrDefault, h]
  · intro n h hn
    simp [predictTwistBody, jsOrDefault, h, hn]

theorem predict_twist_num_predictions_witness :
    (predictTwistBody ⟨"s", none, none⟩).num_predictions = 3 ∧
    (predictTwistBody ⟨"s", none, some 5⟩).num_predictions = 5 :=
  ⟨(predict_twist_num_predictions ⟨"s", none, none⟩).1 (Or.inl rfl),
   (predict_twist_num_predictions ⟨"s", none, some 5⟩).2 5 rfl (by decide)⟩

/-! ## Vector index lemmas -/

theorem rankRel_simval_le {a b : Scored} (h : rankRel a b) : b.simval ≤ a.simval := by
  rcases h with h | ⟨h, -⟩
  · exact h.le
  · exact h.ge

theorem rankRel_pos_le {a b : Scored} (h : rankRel a b)
    (he : a.simval = b.simval) : a.pos ≤ b.pos := by
  rcases h with h | ⟨-, h⟩
  · rw [he] at h
    exact absurd h (lt_irrefl _)
  · exact h

theorem scoredEntries_length (sim : Vec → Vec → ℚ) (idx : Index) (v : Vec) :
    (scoredEntries sim idx v).length = idx.entries.length := by
  unfold scoredEntries
  rw [List.length_map, List.enum_length]

theorem queryScored_pairwise (sim : Vec → Vec → ℚ) (idx : Index) (v : Vec)
    (k : Nat) : (queryScored sim idx v k).Pairwise rankRel := by
  unfold queryScored
  exact (List.sorted_insertionSort rankRel (scoredEntries sim idx v)).sublist
    (List.take_sublist _ _)

theorem scoredEntries_map_result (sim : Vec → Vec → ℚ) (idx : Index) (v : Vec) :
    (scoredEntries sim idx v).map (fun s => (s.ex, s.simval)) =
      idx.entries.map (fun e => (e.1, sim e.2 v)) := by
  unfold scoredEntries
  conv_rhs => rw [← List.enum_map_snd idx.entries]
  rw [List.map_map, List.map_map]
  rfl

/-- C4: for every index built from a non-empty corpus and every `k ≥ 1`,
`query(v, k)` is sorted in descending order of similarity with ties broken by
corpus insertion order, has exactly `min k n` results, is non-empty, and when
`k` exceeds the corpus size it returns all stored entries without error. -/
theorem query_ranking_contract (sim : Vec → Vec → ℚ) (idx : Index) (v : Vec)
    (k : Nat) (hk : 1 ≤ k) (hne : idx.entries ≠ []) :
    (queryScored sim idx v k).Pairwise (fun a b =>
      b.simval ≤ a.simval ∧ (a.simval = b.simval → a.pos ≤ b.pos)) ∧
    (query sim idx v k).Pairwise (fun x y => y.2 ≤ x.2) ∧
    (query sim idx v k).length = min k idx.entries.length ∧
    query sim idx v k ≠ [] ∧
    (idx.entries.length ≤ k →
      (query sim idx v k).Perm (idx.entries.map (fun e => (e.1, sim e.2 v)))) := by
  have hsorted := queryScored_pairwise sim idx v k
  have hlen : (query sim idx v k).length = min k idx.entries.length := by
    unfold query queryScored
    rw [List.length_map, List.length_take, List.length_insertionSort,
      scoredEntries_length]
  refine ⟨?_, ?_, hlen, ?_, ?_⟩
  · exact hsorted.imp (fun h => ⟨rankRel_simval_le h, rankRel_pos_le h⟩)
  · exact hsorted.map _ (fun a b h => rankRel_simval_le h)
  · have hpos : 0 < min k idx.entries.length :=
      lt_min (Nat.lt_of_lt_of_le Nat.zero_lt_one hk) (List.length_pos.mpr hne)
    intro hnil
    rw [hnil] at hlen
    rw [← hlen] at hpos
    exact absurd hpos (by simp)
  · intro hle
    unfold query queryScored
    rw [List.take_of_length_le
      (by rw [List.length_insertionSort, scoredEntries_length]; exact hle)]
    have hperm := (List.perm_insertionSort rankRel (scoredEntries sim idx v)).map
      (fun s => (s.ex, s.simval))
    rw [scoredEntries_map_result] at hperm
    exact hperm

theorem query_ranking_contract_witness :
    1 ≤ 1 ∧ sampleIndex.entries ≠ [] ∧
    ((queryScored constSim sampleIndex [1, 0] 1).Pairwise (fun a b =>
      b.simval ≤ a.simval ∧ (a.simval = b.simval → a.pos ≤ b.pos)) ∧
    (query constSim sampleIndex [1, 0] 1).Pairwise (fun x y => y.2 ≤ x.2) ∧
    (query constSim sampleIndex [1, 0] 1).length = min 1 sampleIndex.entries.length ∧
    query constSim sampleIndex [1, 0] 1 ≠ [] ∧
    (sampleIndex.entries.length ≤ 1 →
      (query constSim sampleIndex [1, 0] 1).Perm
        (sampleIndex.entries.map (fun e => (e.1, constSim e.2 [1, 0]))))) :=
  ⟨Nat.le_refl 1, by decide,
   query_ranking_contract constSim sampleIndex [1, 0] 1 (Nat.le_refl 1) (by decide)⟩

/-! ## Predictor lemmas -/

theorem confidenceFor_nonneg (i : Nat) : 0 ≤ confidenceFor i := by
  unfold confidenceFor
  positivity

theorem confidenceFor_le_one (i : Nat) : confidenceFor i ≤ 1 := by
  unfold confidenceFor
  have h : (3/4 : ℚ) ^ i ≤ 1 := pow_le_one₀ (by norm_num) (by norm_num)
  nlinarith

theorem confidenceFor_antitone {i j : Nat} (h : i ≤ j) :
    confidenceFor j ≤ confidenceFor i := by
  unfold confidenceFor
  have hp := pow_le_pow_of_le_one (by norm_num : (0:ℚ) ≤ 3/4)
    (by norm_num : (3/4:ℚ) ≤ 1) h
  nlinarith

theorem pairwise_fst_lt_enumFrom {α : Type} (n : Nat) (l : List α) :
    (l.enumFrom n).Pairwise (fun a b => a.1 < b.1) := by
  induction l generalizing n with
  | nil => simp
  | cons x xs ih =>
    refine List.Pairwise.cons (fun y hy => ?_) (ih (n + 1))
    exact Nat.lt_of_lt_of_le (Nat.lt_succ_self n) (List.le_fst_of_mem_enumFrom hy)

/-- The predictor's successful result, made explicit when parsing yields at
least one candidate. -/
theorem predict_ok_eq (gen : String → String) (sim : Vec → Vec → ℚ)
    (embed : String → Vec) (idx : Index) (setup : String)
    (genre : Option String) (num K : Nat)
    (hne : predictParsed gen sim embed idx setup genre num K ≠ []) :
    predict gen sim embed idx setup genre num K = Except.ok
      (((predictParsed gen sim embed idx setup genre num K).take num).enum.map
        (fun p => ⟨p.2, confidenceFor p.1⟩)) := by
  unfold predict
  rw [if_neg hne]

/-- C5: every successful prediction returns candidates whose confidences are
monotonically non-increasing and each lie in [0, 1]. -/
theorem predict_confidences_ranked (gen : String → String)
    (sim : Vec → Vec → ℚ) (embed : String → Vec) (idx : Index)
    (setup : String) (genre : Option String) (num K : Nat)
    (cands : List PredictionCandidate)
    (h : predict gen sim embed idx setup genre num K = Except.ok cands) :
    cands.Pairwise (fun a b => b.confidence ≤ a.confidence) ∧
    ∀ c ∈ cands, 0 ≤ c.confidence ∧ c.confidence ≤ 1 := by
  by_cases hne : predictParsed gen sim embed idx setup genre num K = []
  · unfold predict at h
    rw [if_pos hne] at h
    exact Except.noConfusion h
  · rw [predict_ok_eq gen sim embed idx setup genre num K hne] at h
    injection h with h
    subst h
    constructor
    · refine List.Pairwise.map _ (fun a b hab => ?_)
        (pairwise_fst_lt_enumFrom 0 _)
      exact confidenceFor_antitone hab.le
    · intro c hc
      obtain ⟨p, -, rfl⟩ := List.mem_map.1 hc
      exact ⟨confidenceFor_nonneg _, confidenceFor_le_one _⟩

theorem predict_confidences_ranked_witness :
    predict twoLineGen constSim constEmbed sampleIndex "A ghost haunts a house"
        none 2 4 =
      Except.ok [⟨"A", confidenceFor 0⟩, ⟨"B", confidenceFor 1⟩] ∧
    (([⟨"A", confidenceFor 0⟩, ⟨"B", confidenceFor 1⟩] :
        List PredictionCandidate).Pairwise
      (fun a b => b.confidence ≤ a.confidence) ∧
    ∀ c ∈ ([⟨"A", confidenceFor 0⟩, ⟨"B", confidenceFor 1⟩] :
        List PredictionCandidate), 0 ≤ c.confidence ∧ c.confidence ≤ 1) :=
  ⟨rfl, predict_confidences_ranked twoLineGen constSim constEmbed sampleIndex
    "A ghost haunts a house" none 2 4
    [⟨"A", confidenceFor 0⟩, ⟨"B", confidenceFor 1⟩] rfl⟩

/-- C6: when the corpus has no example of the requested genre, the genre
filter is dropped: retrieval equals the unfiltered top-K, and (when the model
output parses to at least `num` candidates) the call still succeeds with
exactly `num` candidates. -/
theorem predict_genre_soft_fallback (gen : String → String)
    (sim : Vec → Vec → ℚ) (embed : String → Vec) (idx : Index)
    (setup g : String) (num K : Nat)
    (hg : ∀ e ∈ idx.entries, e.1.genre ≠ g) (hnum : 1 ≤ num)
    (hlen : num ≤ (predictParsed gen sim embed idx setup (some g) num K).length) :
    retrieve sim idx (embed setup) (some g) K =
      retrieve sim idx (embed setup) none K ∧
    ∃ cands, predict gen sim embed idx setup (some g) num K = Except.ok cands ∧
      cands.length = num := by
  have hfb : filterByGenre idx.entries (some g) = idx.entries := by
    unfold filterByGenre
    have hnil : idx.entries.filter (fun e => e.1.genre = g) = [] := by
      rw [List.filter_eq_nil_iff]
      intro e he
      simpa using hg e he
    simp [hnil]
  have hne : predictParsed gen sim embed idx setup (some g) num K ≠ [] := by
    intro hcon
    rw [hcon] at hlen
    simp at hlen
    omega
  refine ⟨?_, _, predict_ok_eq gen sim embed idx setup (some g) num K hne, ?_⟩
  · unfold retrieve
    rw [hfb]
    rfl
  · rw [List.length_map, List.enum_length, List.length_take, min_eq_left hlen]

theorem predict_genre_soft_fallback_witness :
    (∀ e ∈ sampleIndex.entries, e.1.genre ≠ "sci-fi") ∧ 1 ≤ 2 ∧
    2 ≤ (predictParsed twoLineGen constSim constEmbed sampleIndex
      "A ghost haunts a house" (some "sci-fi") 2 4).length ∧
    (retrieve constSim sampleIndex (constEmbed "A ghost haunts a house")
        (some "sci-fi") 4 =
      retrieve constSim sampleIndex (constEmbed "A ghost haunts a house") none 4 ∧
    ∃ cands, predict twoLineGen constSim constEmbed sampleIndex
        "A ghost haunts a house" (some "sci-fi") 2 4 = Except.ok cands ∧
      cands.length = 2) :=
  ⟨by decide, by decide, by decide,
   predict_genre_soft_fallback twoLineGen constSim constEmbed sampleIndex
     "A ghost haunts a house" "sci-fi" 2 4 (by decide) (by decide) (by decide)⟩

/-- C7: when parsing yields fewer candidates than requested (but at least
one), the result is exactly the parsed candidates — none fabricated — and its
length reports the smaller count accurately. -/
theorem predict_partial_parse_honest (gen : String → String)
    (sim : Vec → Vec → ℚ) (embed : String → Vec) (idx : Index)
    (setup : String) (genre : Option String) (num K : Nat)
    (hne : predictParsed gen sim embed idx setup genre num K ≠ [])
    (hlt : (predictParsed gen sim embed idx setup genre num K).length < num) :
    ∃ cands, predict gen sim embed idx setup genre num K = Except.ok cands ∧
      cands.map (fun c => c.text) =
        predictParsed gen sim embed idx setup genre num K ∧
      cands.length = (predictParsed gen sim embed idx setup genre num K).length := by
  refine ⟨_, predict_ok_eq gen sim embed idx setup genre num K hne, ?_, ?_⟩
  · rw [List.take_of_length_le hlt.le, List.map_map]
    exact List.enum_map_snd _
  · rw [List.length_map, List.enum_length, List.length_take, min_eq_right hlt.le]

theorem predict_partial_parse_honest_witness :
    predictParsed oneLineGen constSim constEmbed sampleIndex
      "A ghost haunts a house" none 3 4 ≠ [] ∧
    (predictParsed oneLineGen constSim constEmbed sampleIndex
      "A ghost haunts a house" none 3 4).length < 3 ∧
    ∃ cands, predict oneLineGen constSim constEmbed sampleIndex
        "A ghost haunts a house" none 3 4 = Except.ok cands ∧
      cands.map (fun c => c.text) =
        predictParsed oneLineGen constSim constEmbed sampleIndex
          "A ghost haunts a house" none 3 4 ∧
      cands.length = (predictParsed oneLineGen constSim constEmbed sampleIndex
        "A ghost haunts a house" none 3 4).length :=
  ⟨by decide, by decide,
   predict_partial_parse_honest oneLineGen constSim constEmbed sampleIndex
     "A ghost haunts a house" none 3 4 (by decide) (by decide)⟩

/-! ## Leaderboard route lemmas -/

theorem lbRel_score_le {a b : LeaderboardRow} (h : lbRel a b) :
    b.score ≤ a.score := by
  rcases h with h | ⟨h, -⟩
  · exact h.le
  · exact h.ge

theorem lbRel_created_le {a b : LeaderboardRow} (h : lbRel a b)
    (he : a.score = b.score) : b.created_at ≤ a.created_at := by
  rcases h with h | ⟨-, h⟩
  · rw [he] at h
    exact absurd h (lt_irrefl _)
  · exact h

theorem modeFilter_invalid (m : String) (rows : List LeaderboardRow)
    (hm : ¬(m = "ai_guess" ∨ m = "human_guess")) :
    modeFilter (some m) rows = rows := by
  simp only [modeFilter]
  rw [if_neg]
  rintro ⟨-, h⟩
  exact hm h

/-- The leaderboard handler's successful result, made explicit. -/
theorem leaderboardHandler_ok (modeQ limitQ : Option String)
    (rows out : List LeaderboardRow)
    (h : leaderboardHandler modeQ limitQ rows = Except.ok out) :
    out = (List.insertionSort lbRel (modeFilter modeQ rows)).take
      (effectiveLimit limitQ).toNat := by
  unfold leaderboardHandler at h
  by_cases hl : effectiveLimit limitQ < 0
  · rw [if_pos hl] at h
    exact Except.noConfusion h
  · rw [if_neg hl] at h
    injection h with h
    exact h.symm

/-- C10 counterexample: the limit parameter `"0"` is parseable (it parses to
0), yet the handler returns one row from a one-row table — more than the
zero rows the claim's "at most limit rows" bound allows. -/
theorem leaderboard_limit_zero_counterexample :
    jsParseInt "0" = some 0 ∧
    leaderboardHandler none (some "0") [rowP] = Except.ok [rowP] ∧
    ¬ (([rowP] : List LeaderboardRow).length ≤ 0) :=
  ⟨by decide, by decide, by decide⟩

/-- C10 (amended): every successful `GET /api/leaderboard` response is ordered
by score descending with ties broken by `created_at` descending, contains at
most `effectiveLimit` rows — 10 when the limit parameter is absent,
unparseable, or parses to 0 — and is filtered by mode exactly when the mode
parameter is `ai_guess` or `human_guess`, any other mode value giving the
unfiltered leaderboard. -/
theorem leaderboard_handler_contract (modeQ limitQ : Option String)
    (rows out : List LeaderboardRow)
    (h : leaderboardHandler modeQ limitQ rows = Except.ok out) :
    out.Pairwise (fun x y =>
      y.score ≤ x.score ∧ (x.score = y.score → y.created_at ≤ x.created_at)) ∧
    out.length ≤ (effectiveLimit limitQ).toNat ∧
    ((limitQ = none ∨ ∃ s, limitQ = some s ∧
        (jsParseInt s = none ∨ jsParseInt s = some 0)) → out.length ≤ 10) ∧
    (∀ m, modeQ = some m → (m = "ai_guess" ∨ m = "human_guess") →
      ∀ r ∈ out, r.mode = m) ∧
    (∀ m, modeQ = some m → ¬(m = "ai_guess" ∨ m = "human_guess") →
      leaderboardHandler modeQ limitQ rows = leaderboardHandler none limitQ rows) := by
  have hout := leaderboardHandler_ok modeQ limitQ rows out h
  have hlen : out.length ≤ (effectiveLimit limitQ).toNat := by
    rw [hout, List.length_take]
    exact min_le_left _ _
  have h10 : (limitQ = none ∨ ∃ s, limitQ = some s ∧
      (jsParseInt s = none ∨ jsParseInt s = some 0)) →
      effectiveLimit limitQ = 10 := by
    rintro (hq | ⟨s, hq, hs | hs⟩) <;> subst hq
    · rfl
    · simp [effectiveLimit, hs]
    · simp [effectiveLimit, hs]
  refine ⟨?_, hlen, ?_, ?_, ?_⟩
  · rw [hout]
    exact ((List.sorted_insertionSort lbRel (modeFilter modeQ rows)).sublist
      (List.take_sublist _ _)).imp
      (fun hr => ⟨lbRel_score_le hr, lbRel_created_le hr⟩)
  · intro hq
    have := h10 hq
    rw [this] at hlen
    exact hlen.trans (by norm_num)
  · intro m hm hvalid r hr
    subst hm
    have hmne : m ≠ "" := by
      rcases hvalid with h' | h' <;> subst h' <;> decide
    have hfilter : modeFilter (some m) rows =
        rows.filter (fun r => r.mode = m) := by
      simp only [modeFilter]
      rw [if_pos ⟨hmne, hvalid⟩]
    rw [hout] at hr
    have hr' := (List.take_sublist _ _).subset hr
    rw [List.mem_insertionSort, hfilter] at hr'
    simpa using (List.mem_filter.1 hr').2
  · intro m hm hinvalid
    subst hm
    unfold leaderboardHandler
    rw [modeFilter_invalid m rows hinvalid]
    rfl

theorem leaderboard_handler_contract_witness :
    leaderboardHandler none none [rowP, rowQ] = Except.ok [rowQ, rowP] ∧
    (([rowQ, rowP] : List LeaderboardRow).Pairwise (fun x y =>
      y.score ≤ x.score ∧ (x.score = y.score → y.created_at ≤ x.created_at)) ∧
    ([rowQ, rowP] : List LeaderboardRow).length ≤ (effectiveLimit none).toNat ∧
    (((none : Option String) = none ∨ ∃ s, (none : Option String) = some s ∧
        (jsParseInt s = none ∨ jsParseInt s = some 0)) →
      ([rowQ, rowP] : List LeaderboardRow).length ≤ 10) ∧
    (∀ m, (none : Option String) = some m →
      (m = "ai_guess" ∨ m = "human_guess") →
      ∀ r ∈ ([rowQ, rowP] : List LeaderboardRow), r.mode = m) ∧
    (∀ m, (none : Option String) = some m →
      ¬(m = "ai_guess" ∨ m = "human_guess") →
      leaderboardHandler none none [rowP, rowQ] =
        leaderboardHandler none none [rowP, rowQ])) :=
  ⟨by decide,
   leaderboard_handler_contract none none [rowP, rowQ] [rowQ, rowP] (by decide)⟩

end PlotTwist
